import Mathlib

/-!
Shallow embedding of the sparkgap circuit breaker (src/sparkgap.go).

The Go package implements a circuit breaker with states Closed, Open and
Half-Open.  Counters are uint32 cells (modelled as Nat with additions taken
mod 2^32), durations are int64 nanoseconds (modelled as Int), and the
floating-point failure-percentage computation
  uint32(float64(fail) / float64(maxProbes) * 100)
is modelled exactly by simulating IEEE-754 binary64 round-to-nearest-even
arithmetic over the rationals.

The goroutine spawned by startRetry is modelled by a pending-transition
counter on the breaker; firing such a pending transition is the retryFire
operation.  Errors are modelled by their message string (the code only ever
constructs errors with fmt.Errorf and never inspects them otherwise), so the
error component of a result is an Option String.
-/

/-- Modulus of Go uint32 arithmetic. -/
def UINT32MOD : Nat := 2 ^ 32

/-- Wrapping uint32 addition, as performed by atomic.AddUint32. -/
def add32 (a b : Nat) : Nat := (a + b) % UINT32MOD

/-- Breaker states; the Go source declares stateClosed, stateOpen and
stateHalfOpen as consecutive integer constants. -/
inductive BState where
  | stateClosed
  | stateOpen
  | stateHalfOpen
deriving DecidableEq, Repr

/-- Configuration record BreakerConfig of src/sparkgap.go.  Both uint32
fields are Nat (values below 2^32); the two time.Duration fields are Int
(int64 nanoseconds). -/
structure BreakerConfig where
  FailureThreshold : Nat
  RetryInterval : Int
  HalfOpenMaxProbes : Nat
  HalfOpenMaxFailurePercent : Nat
  Timeout : Int
deriving DecidableEq, Repr

def defaultFailureThreshold : Nat := 5

def defaultHalfOpenProbes : Nat := 10

def defaultHalfOpenMaxFailurePercent : Nat := 30

/-- Default retry interval: 5 * time.Second, in nanoseconds. -/
def defaultRetryInterval : Int := 5 * 1000000000

/-- applyDefaults of src/sparkgap.go, written functionally: each zero/out-of-
domain field is replaced by its default. -/
def applyDefaults (c : BreakerConfig) : BreakerConfig :=
  let c1 := if c.FailureThreshold = 0 then
    { c with FailureThreshold := defaultFailureThreshold } else c
  let c2 := if c1.RetryInterval ≤ 0 then
    { c1 with RetryInterval := defaultRetryInterval } else c1
  let c3 := if c2.HalfOpenMaxProbes = 0 then
    { c2 with HalfOpenMaxProbes := defaultHalfOpenProbes } else c2
  let c4 := if c3.HalfOpenMaxFailurePercent = 0 ∨ 100 < c3.HalfOpenMaxFailurePercent then
    { c3 with HalfOpenMaxFailurePercent := defaultHalfOpenMaxFailurePercent } else c3
  c4

/-- applyDefaults receives a pointer (*BreakerConfig) in Go and dereferences
it unconditionally; a nil pointer therefore panics.  The pointer is an
Option and the panic is the none result. -/
def applyDefaultsPtr (c : Option BreakerConfig) : Option BreakerConfig :=
  match c with
  | none => none
  | some cfg => some (applyDefaults cfg)

/-- The counter struct of src/sparkgap.go. -/
structure Counter where
  failureCount : Nat
  failureThreshold : Nat
  retryInterval : Int
  halfOpenMaxProbes : Nat
  halfOpenFailureCount : Nat
  halfOpenSuccessCount : Nat
  halfOpenMaxFailurePercent : Nat
deriving DecidableEq, Repr

/-- The breaker struct.  The sync.RWMutex is not represented (the embedding
is sequential); pendingRetries counts the goroutines spawned by startRetry
that have not yet fired their setState(stateHalfOpen). -/
structure Breaker where
  name : String
  counter : Counter
  state : BState
  timeout : Int
  pendingRetries : Nat
deriving DecidableEq, Repr

/-- startRetry spawns a goroutine that sleeps retryInterval and then sets the
state to stateHalfOpen; in the model it arms one pending transition. -/
def startRetry (br : Breaker) : Breaker :=
  { br with pendingRetries := br.pendingRetries + 1 }

/-- The body of a goroutine armed by startRetry finally runs
setState(stateHalfOpen); firing consumes one pending transition. -/
def retryFire (br : Breaker) : Breaker :=
  { br with state := BState.stateHalfOpen, pendingRetries := br.pendingRetries - 1 }

def setState (br : Breaker) (s : BState) : Breaker :=
  { br with state := s }

def getState (br : Breaker) : BState := br.state

/-- Message of the error built by fmt.Errorf in the stateOpen branch of
Execute. -/
def breakerOpenMsg : String := "circuit breaker is open"

/-- Round the rational a / b (b > 0) to the nearest natural number, ties to
even: this is IEEE-754 default rounding applied to a scaled significand. -/
def divNE (a b : Nat) : Nat :=
  let n := a / b
  let r := a % b
  if 2 * r < b then n
  else if b < 2 * r then n + 1
  else if n % 2 = 0 then n else n + 1

/-- Floor of the base-2 logarithm (0 for input 0 or 1), by structural
recursion on an explicit fuel so that kernel reduction never gets stuck;
fuel 400 is ample for every number below 2 ^ 400. -/
def log2fuel : Nat → Nat → Nat
  | 0, _ => 0
  | fuel + 1, n => if n ≤ 1 then 0 else log2fuel fuel (n / 2) + 1

/-- Models the Go expression uint32(float64(fail) / float64(probes) * 100)
from recordHalfOpenResult, for 0 < probes < 2 ^ 32 and fail < 2 ^ 32 (the
uint32 range; in Go, probes = 0 would produce a NaN whose uint32 conversion
is unspecified).  Both operands convert exactly to float64 (they are below
2 ^ 53); the division and the multiplication each round to the nearest
binary64, ties to even; the uint32 conversion truncates toward zero.

A positive binary64 value is a dyadic rational m / 2 ^ s with
2 ^ 52 ≤ m < 2 ^ 53 (or m = 2 ^ 53 after a carry, the same value with the
next exponent); rounding a positive rational q to binary64 takes
e = floor(log2 q) and rounds q * 2 ^ (52 - e) to the nearest integer, ties
to even.  Exponents are carried as offsets s = 52 - e = 180 - (e + 128), and
floor(log2 q) is computed as log2fuel 400 (floor(q * 2 ^ 128)) - 128, valid
because every quotient arising here lies in (2 ^ (-64), 2 ^ 64). -/
def floatPercent (fail probes : Nat) : Nat :=
  if fail = 0 then 0
  else
    let s1 := 180 - log2fuel 400 (fail * 2 ^ 128 / probes)
    let m1 := divNE (fail * 2 ^ s1) probes
    let num := 100 * m1
    let s2 := 180 - log2fuel 400 (num * 2 ^ 128 / 2 ^ s1)
    let m2 := divNE (num * 2 ^ s2) (2 ^ s1)
    m2 / 2 ^ s2

/-- recordHalfOpenResult of src/sparkgap.go: no-op unless Half-Open;
otherwise count the probe outcome and, when the window is full, decide
between reopening (with a fresh retry) and closing (zeroing failureCount),
then zero both probe counters. -/
def recordHalfOpenResult (br : Breaker) (success : Bool) : Breaker :=
  if getState br ≠ BState.stateHalfOpen then br
  else
    let br1 :=
      if success then
        { br with counter :=
          { br.counter with halfOpenSuccessCount := add32 br.counter.halfOpenSuccessCount 1 } }
      else
        { br with counter :=
          { br.counter with halfOpenFailureCount := add32 br.counter.halfOpenFailureCount 1 } }
    let fail := br1.counter.halfOpenFailureCount
    let succ := br1.counter.halfOpenSuccessCount
    if add32 fail succ = br1.counter.halfOpenMaxProbes then
      let failurePercent := floatPercent fail br1.counter.halfOpenMaxProbes
      let br2 :=
        if br1.counter.halfOpenMaxFailurePercent ≤ failurePercent then
          startRetry (setState br1 BState.stateOpen)
        else
          setState { br1 with counter := { br1.counter with failureCount := 0 } }
            BState.stateClosed
      { br2 with counter :=
        { br2.counter with halfOpenFailureCount := 0, halfOpenSuccessCount := 0 } }
    else br1

/-- failure of src/sparkgap.go: increment failureCount and, when it reaches
the threshold, open the breaker and arm a retry. -/
def Breaker.failure (br : Breaker) : Breaker :=
  let br1 := { br with counter :=
    { br.counter with failureCount := add32 br.counter.failureCount 1 } }
  if br1.counter.failureThreshold ≤ br1.counter.failureCount then
    startRetry (setState br1 BState.stateOpen)
  else br1

/-- Result of one Execute call: the updated breaker, the returned value and
error, and how many times the wrapped fn was invoked. -/
structure ExecResult (T : Type) where
  br : Breaker
  res : T
  err : Option String
  fnCalls : Nat
deriving Repr

/-- Execute of src/sparkgap.go.  The wrapped call fn is modelled by the pair
it returns; err = none models a nil Go error.  The Open branch returns the zero
value of T (Inhabited.default) and the breaker-open error without invoking
fn; the other branches invoke fn exactly once and pass its result through. -/
def Execute {T : Type} [Inhabited T] (br : Breaker) (fn : T × Option String) :
    ExecResult T :=
  match getState br with
  | BState.stateOpen => ⟨br, default, some breakerOpenMsg, 0⟩
  | BState.stateHalfOpen =>
      match fn with
      | (res, some e) => ⟨recordHalfOpenResult br false, res, some e, 1⟩
      | (res, none) => ⟨recordHalfOpenResult br true, res, none, 1⟩
  | BState.stateClosed =>
      match fn with
      | (res, some e) => ⟨Breaker.failure br, res, some e, 1⟩
      | (res, none) => ⟨br, res, none, 1⟩

/-- InitBreaker of src/sparkgap.go.  The cfg argument is a pointer, so it is
an Option; with a nil pointer applyDefaults dereferences nil and the
function panics, modelled by the none result. -/
def InitBreaker (name : String) (cfg : Option BreakerConfig) : Option Breaker :=
  let nm := if name = "" then "breaker" else name
  match applyDefaultsPtr cfg with
  | none => none
  | some c =>
      some
        { name := nm
          counter :=
            { failureCount := 0
              failureThreshold := c.FailureThreshold
              retryInterval := c.RetryInterval
              halfOpenMaxProbes := c.HalfOpenMaxProbes
              halfOpenFailureCount := 0
              halfOpenSuccessCount := 0
              halfOpenMaxFailurePercent := c.HalfOpenMaxFailurePercent }
          timeout := c.Timeout
          state := BState.stateClosed
          pendingRetries := 0 }

/-- Breaker reached after n consecutive Execute calls whose wrapped results
are given by seq (call i uses seq i). -/
def execSeqIter {T : Type} [Inhabited T] (seq : Nat → T × Option String) :
    Nat → Breaker → Breaker
  | 0, br => br
  | n + 1, br => (Execute (execSeqIter seq n br) (seq n)).br

/-- Total number of invocations of the wrapped fn across n consecutive
Execute calls driven by seq. -/
def execSeqCalls {T : Type} [Inhabited T] (seq : Nat → T × Option String) :
    Nat → Breaker → Nat
  | 0, _ => 0
  | n + 1, br => execSeqCalls seq n br + (Execute (execSeqIter seq n br) (seq n)).fnCalls

/-- Breakers reachable from a freshly constructed breaker by completed
operations: Execute calls (whose breaker effect depends only on the error
component of the wrapped result) and firings of armed retry goroutines.
The uint32 range of the configured probe window is recorded at
construction. -/
inductive Reachable : Breaker → Prop where
  | init (name : String) (cfg : BreakerConfig) (br : Breaker) :
      cfg.HalfOpenMaxProbes < UINT32MOD →
      InitBreaker name (some cfg) = some br → Reachable br
  | exec (br : Breaker) (err : Option String) : Reachable br →
      Reachable (Execute (T := Unit) br ((), err)).br
  | fire (br : Breaker) : Reachable br → Reachable (retryFire br)

set_option maxRecDepth 10000

/-! Helper lemmas. -/

theorem add32_small (a b : Nat) (h : a + b < UINT32MOD) : add32 a b = a + b := by
  simp [add32, Nat.mod_eq_of_lt h]

theorem Execute_state_open {T : Type} [Inhabited T] (br : Breaker)
    (fn : T × Option String) (hs : br.state = BState.stateOpen) :
    Execute br fn = ⟨br, default, some breakerOpenMsg, 0⟩ := by
  simp [Execute, getState, hs]

theorem Execute_state_closed_ok {T : Type} [Inhabited T] (br : Breaker) (res : T)
    (hs : br.state = BState.stateClosed) :
    Execute br (res, none) = ⟨br, res, none, 1⟩ := by
  simp [Execute, getState, hs]

theorem Execute_state_closed_err {T : Type} [Inhabited T] (br : Breaker) (res : T)
    (e : String) (hs : br.state = BState.stateClosed) :
    Execute br (res, some e) = ⟨Breaker.failure br, res, some e, 1⟩ := by
  simp [Execute, getState, hs]

theorem Execute_state_half_ok {T : Type} [Inhabited T] (br : Breaker) (res : T)
    (hs : br.state = BState.stateHalfOpen) :
    Execute br (res, none) = ⟨recordHalfOpenResult br true, res, none, 1⟩ := by
  simp [Execute, getState, hs]

theorem Execute_state_half_err {T : Type} [Inhabited T] (br : Breaker) (res : T)
    (e : String) (hs : br.state = BState.stateHalfOpen) :
    Execute br (res, some e) = ⟨recordHalfOpenResult br false, res, some e, 1⟩ := by
  simp [Execute, getState, hs]

/-- Invoking branches pass the wrapped result and error through unchanged. -/
theorem Execute_passthrough {T : Type} [Inhabited T] (br : Breaker)
    (fn : T × Option String)
    (h : br.state = BState.stateClosed ∨ br.state = BState.stateHalfOpen) :
    (Execute br fn).res = fn.1 ∧ (Execute br fn).err = fn.2 ∧
      (Execute br fn).fnCalls = 1 := by
  obtain ⟨res, err⟩ := fn
  rcases h with hs | hs <;> cases err <;>
    simp [Execute_state_closed_ok, Execute_state_closed_err,
      Execute_state_half_ok, Execute_state_half_err, hs]

/-- Concrete Open breaker used by witnesses. -/
def brOpenW : Breaker :=
  ⟨"w", ⟨2, 5, 5000000000, 10, 1, 1, 30⟩, BState.stateOpen, 0, 0⟩

/-- Concrete Closed breaker used by witnesses. -/
def brClosedW : Breaker :=
  ⟨"w", ⟨2, 5, 5000000000, 10, 1, 1, 30⟩, BState.stateClosed, 0, 0⟩

/-- C1: while Open, Execute returns the zero value of T together with the
breaker-open error without invoking fn, and leaves the whole breaker (state,
failureCount and both probe counters included) unchanged; hence any number
of repeated Execute calls while Open leaves the breaker unchanged and never
invokes the wrapped work. -/
theorem C1_open_short_circuit {T : Type} [Inhabited T] (br : Breaker)
    (hs : br.state = BState.stateOpen) :
    (∀ fn : T × Option String, Execute br fn = ⟨br, default, some breakerOpenMsg, 0⟩) ∧
    (∀ (seq : Nat → T × Option String) (n : Nat),
      execSeqIter seq n br = br ∧ execSeqCalls seq n br = 0) := by
  refine ⟨fun fn => Execute_state_open br fn hs, fun seq n => ?_⟩
  induction n with
  | zero => exact ⟨rfl, rfl⟩
  | succ k ih =>
      refine ⟨?_, ?_⟩
      · show (Execute (execSeqIter seq k br) (seq k)).br = br
        rw [ih.1, Execute_state_open br _ hs]
      · show execSeqCalls seq k br + (Execute (execSeqIter seq k br) (seq k)).fnCalls = 0
        rw [ih.2, ih.1, Execute_state_open br _ hs]
        rfl

/-- Witness for C1 at a concrete Open breaker and a concrete wrapped call. -/
theorem C1_open_short_circuit_witness :
    Execute brOpenW ((7 : Nat), some ("boom")) = ⟨brOpenW, 0, some breakerOpenMsg, 0⟩ ∧
    execSeqIter (fun _ => ((7 : Nat), some ("boom"))) 5 brOpenW = brOpenW ∧
    execSeqCalls (fun _ => ((7 : Nat), some ("boom"))) 5 brOpenW = 0 := by
  have h := C1_open_short_circuit (T := Nat) brOpenW (by decide)
  exact ⟨h.1 _, (h.2 (fun _ => ((7 : Nat), some ("boom"))) 5).1,
    (h.2 (fun _ => ((7 : Nat), some ("boom"))) 5).2⟩

/-- C6: whenever Execute actually invokes the work function (state Closed or
HalfOpen) it returns the wrapped result value and error unchanged, invoking
the function exactly once; and a successful call in the Closed state leaves
the breaker (in particular failureCount) exactly as it was. -/
theorem C6_result_passthrough {T : Type} [Inhabited T] (br : Breaker)
    (fn : T × Option String)
    (h : br.state = BState.stateClosed ∨ br.state = BState.stateHalfOpen) :
    (Execute br fn).res = fn.1 ∧ (Execute br fn).err = fn.2 ∧
    (Execute br fn).fnCalls = 1 ∧
    (br.state = BState.stateClosed → fn.2 = none → (Execute br fn).br = br) := by
  refine ⟨(Execute_passthrough br fn h).1, (Execute_passthrough br fn h).2.1,
    (Execute_passthrough br fn h).2.2, fun hc hn => ?_⟩
  obtain ⟨res, err⟩ := fn
  cases hn
  rw [Execute_state_closed_ok br res hc]

/-- Witness for C6 at a concrete Closed breaker and a successful call. -/
theorem C6_result_passthrough_witness :
    (Execute brClosedW ((9 : Nat), none)).res = 9 ∧
    (Execute brClosedW ((9 : Nat), none)).err = none ∧
    (Execute brClosedW ((9 : Nat), none)).fnCalls = 1 ∧
    (Execute brClosedW ((9 : Nat), none)).br = brClosedW := by
  have h := C6_result_passthrough (T := Nat) brClosedW (9, none) (Or.inl (by decide))
  exact ⟨h.1, h.2.1, h.2.2.1, h.2.2.2 (by decide) rfl⟩

/-- C7: recording a probe outcome while the state is not HalfOpen changes
nothing at all, for both outcomes. -/
theorem C7_record_not_half_noop (br : Breaker) (success : Bool)
    (h : br.state ≠ BState.stateHalfOpen) :
    recordHalfOpenResult br success = br := by
  simp [recordHalfOpenResult, getState, h]

/-- Witness for C7 at a concrete Closed breaker. -/
theorem C7_record_not_half_noop_witness :
    recordHalfOpenResult brClosedW true = brClosedW ∧
    recordHalfOpenResult brClosedW false = brClosedW := by
  exact ⟨C7_record_not_half_noop brClosedW true (by decide),
    C7_record_not_half_noop brClosedW false (by decide)⟩

/-- C10: InitBreaker dereferences the configuration pointer unconditionally
inside applyDefaults, so a nil configuration panics (the none result)
instead of falling back to defaults, while every non-nil configuration
yields a breaker. -/
theorem C10_nil_config_panics :
    (∀ name : String, InitBreaker name none = none) ∧
    (∀ (name : String) (c : BreakerConfig), (InitBreaker name (some c)).isSome = true) := by
  constructor
  · intro name
    simp [InitBreaker, applyDefaultsPtr]
  · intro name c
    simp [InitBreaker, applyDefaultsPtr]

/-- C5: applyDefaults raises no error and normalizes exactly the zero or
out-of-domain fields to the documented defaults (FailureThreshold 5,
RetryInterval 5 seconds, HalfOpenMaxProbes 10, HalfOpenMaxFailurePercent 30
when 0 or above 100), keeping in-domain values unchanged; the resolved
configuration always has a positive failure threshold, a positive retry
interval, a positive probe window, and a failure-percent threshold in
1..100. -/
theorem C5_defaults_resolution (c : BreakerConfig) (name : String) :
    (InitBreaker name (some c)).isSome = true ∧
    (applyDefaults c).FailureThreshold =
      (if c.FailureThreshold = 0 then 5 else c.FailureThreshold) ∧
    (applyDefaults c).RetryInterval =
      (if c.RetryInterval ≤ 0 then 5000000000 else c.RetryInterval) ∧
    (applyDefaults c).HalfOpenMaxProbes =
      (if c.HalfOpenMaxProbes = 0 then 10 else c.HalfOpenMaxProbes) ∧
    (applyDefaults c).HalfOpenMaxFailurePercent =
      (if c.HalfOpenMaxFailurePercent = 0 ∨ 100 < c.HalfOpenMaxFailurePercent
        then 30 else c.HalfOpenMaxFailurePercent) ∧
    (applyDefaults c).Timeout = c.Timeout ∧
    1 ≤ (applyDefaults c).FailureThreshold ∧
    0 < (applyDefaults c).RetryInterval ∧
    1 ≤ (applyDefaults c).HalfOpenMaxProbes ∧
    1 ≤ (applyDefaults c).HalfOpenMaxFailurePercent ∧
    (applyDefaults c).HalfOpenMaxFailurePercent ≤ 100 := by
  obtain ⟨ft, ri, pr, pc, tm⟩ := c
  refine ⟨by simp [InitBreaker, applyDefaultsPtr], ?_⟩
  simp only [applyDefaults, defaultFailureThreshold, defaultRetryInterval,
    defaultHalfOpenProbes, defaultHalfOpenMaxFailurePercent]
  split_ifs <;> simp_all <;> omega

/-- Concrete breakers exhibiting the C9 ambiguity: the same configuration in
the Open and in the Closed state. -/
def brOpenE : Breaker :=
  ⟨"e", ⟨0, 5, 5000000000, 10, 0, 0, 30⟩, BState.stateOpen, 0, 0⟩

def brClosedE : Breaker :=
  ⟨"e", ⟨0, 5, 5000000000, 10, 0, 0, 30⟩, BState.stateClosed, 0, 0⟩

/-- C9 counterexample: the short-circuit error is a fresh fmt.Errorf value
with no exported sentinel, so a work function whose own error carries the
identical message makes the Open short-circuit and a genuine Closed-state
dependency failure return byte-for-byte the same value and error; no caller
can decide between them from the returned error alone, refuting the claim
for this work function. -/
theorem C9_counterexample :
    (Execute brOpenE ((0 : Nat), some breakerOpenMsg)).res =
      (Execute brClosedE ((0 : Nat), some breakerOpenMsg)).res ∧
    (Execute brOpenE ((0 : Nat), some breakerOpenMsg)).err =
      (Execute brClosedE ((0 : Nat), some breakerOpenMsg)).err ∧
    (Execute brOpenE ((0 : Nat), some breakerOpenMsg)).fnCalls = 0 ∧
    (Execute brClosedE ((0 : Nat), some breakerOpenMsg)).fnCalls = 1 := by
  decide

/-- C9 amended: the Open short-circuit always returns the fixed message
(the string built by fmt.Errorf), and for every work function whose error
is not that exact message, a non-Open Execute never returns it, so such
callers can branch on the message; only a work error carrying the identical
message is indistinguishable. -/
theorem C9_open_error_distinguishable {T : Type} [Inhabited T]
    (brO brX : Breaker) (fn : T × Option String)
    (hO : brO.state = BState.stateOpen)
    (hX : brX.state ≠ BState.stateOpen)
    (hne : fn.2 ≠ some breakerOpenMsg) :
    (Execute brO fn).err = some breakerOpenMsg ∧
    (Execute brX fn).err ≠ some breakerOpenMsg := by
  constructor
  · rw [Execute_state_open brO fn hO]
  · have hx : brX.state = BState.stateClosed ∨ brX.state = BState.stateHalfOpen := by
      cases h : brX.state
      · exact Or.inl rfl
      · exact absurd h hX
      · exact Or.inr rfl
    rw [(Execute_passthrough brX fn hx).2.1]
    exact hne

/-- Witness for C9 amended at concrete breakers and a distinct work error. -/
theorem C9_open_error_distinguishable_witness :
    (Execute brOpenE ((0 : Nat), some ("boom"))).err = some breakerOpenMsg ∧
    (Execute brClosedE ((0 : Nat), some ("boom"))).err ≠ some breakerOpenMsg := by
  exact C9_open_error_distinguishable brOpenE brClosedE ((0 : Nat), some ("boom"))
    (by decide) (by decide) (by decide)

/-- Below the threshold, k consecutive failing Execute calls from a Closed
breaker only add k to failureCount. -/
theorem execSeq_closed_below {T : Type} [Inhabited T]
    (seq : Nat → T × Option String) (br : Breaker)
    (hfail : ∀ i, (seq i).2 ≠ none)
    (hs : br.state = BState.stateClosed)
    (hle : br.counter.failureThreshold ≤ UINT32MOD) :
    ∀ k, br.counter.failureCount + k < br.counter.failureThreshold →
      execSeqIter seq k br =
        { br with counter :=
          { br.counter with failureCount := br.counter.failureCount + k } } := by
  intro k
  induction k with
  | zero => intro _; rfl
  | succ k ih =>
      intro hk
      have hbrk := ih (by omega)
      show (Execute (execSeqIter seq k br) (seq k)).br = _
      rw [hbrk]
      rcases hseq : seq k with ⟨res, err⟩
      cases err with
      | none =>
          have := hfail k
          rw [hseq] at this
          simp at this
      | some e =>
          rw [Execute_state_closed_err _ res e (by simp [hs])]
          have hadd : add32 (br.counter.failureCount + k) 1 =
              br.counter.failureCount + k + 1 :=
            add32_small _ _ (by omega)
          simp only [Breaker.failure, hadd]
          rw [if_neg (by simp; omega)]
          rfl

/-- C2: from a Closed breaker with failureCount 0, each failing Execute call
increments failureCount and leaves the state Closed as long as the count is
below failureThreshold; the call that makes the count reach the threshold
transitions the breaker to Open and arms the retry scheduler (one new
pending retry). -/
theorem C2_threshold_opens {T : Type} [Inhabited T]
    (seq : Nat → T × Option String) (br : Breaker)
    (hfail : ∀ i, (seq i).2 ≠ none)
    (hs : br.state = BState.stateClosed)
    (h0 : br.counter.failureCount = 0)
    (hpos : 0 < br.counter.failureThreshold)
    (hlt : br.counter.failureThreshold < UINT32MOD) :
    (execSeqIter seq br.counter.failureThreshold br).state = BState.stateOpen ∧
    (execSeqIter seq br.counter.failureThreshold br).counter.failureCount =
      br.counter.failureThreshold ∧
    (execSeqIter seq br.counter.failureThreshold br).pendingRetries =
      br.pendingRetries + 1 ∧
    ∀ k < br.counter.failureThreshold,
      (execSeqIter seq k br).state = BState.stateClosed ∧
      (execSeqIter seq k br).counter.failureCount = k := by
  have hbelow := execSeq_closed_below seq br hfail hs (Nat.le_of_lt hlt)
  have hsmall : ∀ k < br.counter.failureThreshold,
      (execSeqIter seq k br).state = BState.stateClosed ∧
      (execSeqIter seq k br).counter.failureCount = k := by
    intro k hk
    rw [hbelow k (by omega)]
    exact ⟨hs, by simp [h0]⟩
  obtain ⟨t, ht⟩ : ∃ t, br.counter.failureThreshold = t + 1 :=
    ⟨br.counter.failureThreshold - 1, by omega⟩
  have hfinal : execSeqIter seq br.counter.failureThreshold br =
      startRetry (setState
        { br with counter := { br.counter with failureCount := br.counter.failureThreshold } }
        BState.stateOpen) := by
    rw [ht]
    show (Execute (execSeqIter seq t br) (seq t)).br = _
    rw [execSeq_closed_below seq br hfail hs (Nat.le_of_lt hlt) t (by omega)]
    rcases hseq : seq t with ⟨res, err⟩
    cases err with
    | none =>
        have := hfail t
        rw [hseq] at this
        simp at this
    | some e =>
        rw [Execute_state_closed_err _ res e (by simp [hs])]
        have hadd : add32 (br.counter.failureCount + t) 1 =
            br.counter.failureCount + t + 1 :=
          add32_small _ _ (by omega)
        simp only [Breaker.failure, hadd]
        rw [if_pos (show br.counter.failureThreshold ≤
          br.counter.failureCount + t + 1 by omega)]
        simp [h0, ht]
  refine ⟨?_, ?_, ?_, hsmall⟩ <;> rw [hfinal] <;>
    simp [startRetry, setState]

/-- Concrete Closed breaker with threshold 3 and zero failureCount, for the
C2 witness. -/
def brClosed3 : Breaker :=
  ⟨"w", ⟨0, 3, 5000000000, 10, 0, 0, 30⟩, BState.stateClosed, 0, 0⟩

/-- Witness for C2: three consecutive failing calls on a fresh breaker with
threshold 3 open it and arm one retry; after two calls it is still Closed
with failureCount 2. -/
theorem C2_threshold_opens_witness :
    (execSeqIter (fun _ => ((0 : Nat), some ("x"))) 3 brClosed3).state = BState.stateOpen ∧
    (execSeqIter (fun _ => ((0 : Nat), some ("x"))) 3 brClosed3).counter.failureCount = 3 ∧
    (execSeqIter (fun _ => ((0 : Nat), some ("x"))) 3 brClosed3).pendingRetries = 1 ∧
    (execSeqIter (fun _ => ((0 : Nat), some ("x"))) 2 brClosed3).state = BState.stateClosed ∧
    (execSeqIter (fun _ => ((0 : Nat), some ("x"))) 2 brClosed3).counter.failureCount = 2 := by
  have h := C2_threshold_opens (fun _ => ((0 : Nat), some ("x"))) brClosed3
    (fun i => by simp) (by decide) (by decide) (by decide) (by decide)
  exact ⟨h.1, h.2.1, h.2.2.1, (h.2.2.2 2 (by decide)).1, (h.2.2.2 2 (by decide)).2⟩

/-- Half-Open breaker whose next failing probe fills a window of 100 with 29
failures, at threshold 29: the claimed floor formula gives exactly 29. -/
def brHalfCex : Breaker :=
  ⟨"c", ⟨7, 5, 5000000000, 100, 28, 71, 29⟩, BState.stateHalfOpen, 0, 0⟩

/-- C3 counterexample: with 28 probe failures and 71 probe successes in a
window of 100 and threshold 29, a failing probe completes the window with
29 failures; floor(29 / 100 * 100) = 29 ≥ 29, so the claim requires an Open
transition with a re-armed retry, but the Go float64 arithmetic yields
uint32(float64(29)/float64(100)*100) = 28 < 29 and the code transitions to
Closed and arms nothing. -/
theorem C3_floor_formula_counterexample :
    brHalfCex.counter.halfOpenFailureCount + 1 + brHalfCex.counter.halfOpenSuccessCount
      = brHalfCex.counter.halfOpenMaxProbes ∧
    brHalfCex.counter.halfOpenMaxFailurePercent ≤
      (brHalfCex.counter.halfOpenFailureCount + 1) * 100
        / brHalfCex.counter.halfOpenMaxProbes ∧
    floatPercent (brHalfCex.counter.halfOpenFailureCount + 1)
      brHalfCex.counter.halfOpenMaxProbes = 28 ∧
    (recordHalfOpenResult brHalfCex false).state = BState.stateClosed ∧
    (recordHalfOpenResult brHalfCex false).pendingRetries = 0 := by
  decide

/-- C3 amended: while HalfOpen, when recording a probe outcome makes the
probe counters sum to probeWindowSize, the breaker computes failurePercent
as the float64 expression uint32(float64(fail)/float64(window)*100) (which
can differ by one from the exact floor, as the counterexample shows); if
that value reaches probeFailurePercentThreshold it transitions to Open and
re-arms the retry scheduler leaving failureCount untouched, otherwise it
zeroes failureCount and transitions to Closed without arming; in both
branches both probe counters are 0 immediately after the decision. -/
theorem C3_window_decision (br : Breaker) (success : Bool)
    (hs : br.state = BState.stateHalfOpen)
    (hw : br.counter.halfOpenFailureCount + br.counter.halfOpenSuccessCount + 1 =
      br.counter.halfOpenMaxProbes)
    (hbound : br.counter.halfOpenMaxProbes < UINT32MOD) :
    (br.counter.halfOpenMaxFailurePercent ≤
        floatPercent (br.counter.halfOpenFailureCount + (if success then 0 else 1))
          br.counter.halfOpenMaxProbes →
      (recordHalfOpenResult br success).state = BState.stateOpen ∧
      (recordHalfOpenResult br success).pendingRetries = br.pendingRetries + 1 ∧
      (recordHalfOpenResult br success).counter.failureCount = br.counter.failureCount) ∧
    (floatPercent (br.counter.halfOpenFailureCount + (if success then 0 else 1))
        br.counter.halfOpenMaxProbes < br.counter.halfOpenMaxFailurePercent →
      (recordHalfOpenResult br success).state = BState.stateClosed ∧
      (recordHalfOpenResult br success).counter.failureCount = 0 ∧
      (recordHalfOpenResult br success).pendingRetries = br.pendingRetries) ∧
    (recordHalfOpenResult br success).counter.halfOpenFailureCount = 0 ∧
    (recordHalfOpenResult br success).counter.halfOpenSuccessCount = 0 := by
  cases success with
  | true =>
      have h1 : add32 br.counter.halfOpenSuccessCount 1 =
          br.counter.halfOpenSuccessCount + 1 :=
        add32_small _ _ (by omega)
      have h2 : add32 br.counter.halfOpenFailureCount
          (br.counter.halfOpenSuccessCount + 1) = br.counter.halfOpenMaxProbes := by
        rw [add32_small _ _ (by omega)]
        omega
      by_cases hpc : br.counter.halfOpenMaxFailurePercent ≤
          floatPercent br.counter.halfOpenFailureCount br.counter.halfOpenMaxProbes
      · have hr : recordHalfOpenResult br true =
            { br with
              state := BState.stateOpen
              pendingRetries := br.pendingRetries + 1
              counter := { br.counter with
                halfOpenFailureCount := 0, halfOpenSuccessCount := 0 } } := by
          simp [recordHalfOpenResult, getState, hs, h1, h2, hpc, startRetry, setState]
        refine ⟨fun _ => ?_, fun hcon => ?_, ?_, ?_⟩
        · rw [hr]
          exact ⟨rfl, rfl, rfl⟩
        · simp at hcon
          omega
        · rw [hr]
        · rw [hr]
      · have hr : recordHalfOpenResult br true =
            { br with
              state := BState.stateClosed
              counter := { br.counter with
                failureCount := 0, halfOpenFailureCount := 0, halfOpenSuccessCount := 0 } } := by
          simp [recordHalfOpenResult, getState, hs, h1, h2, hpc, startRetry, setState]
        refine ⟨fun hcon => ?_, fun _ => ?_, ?_, ?_⟩
        · simp at hcon
          omega
        · rw [hr]
          exact ⟨rfl, rfl, rfl⟩
        · rw [hr]
        · rw [hr]
  | false =>
      have h1 : add32 br.counter.halfOpenFailureCount 1 =
          br.counter.halfOpenFailureCount + 1 :=
        add32_small _ _ (by omega)
      have h2 : add32 (br.counter.halfOpenFailureCount + 1)
          br.counter.halfOpenSuccessCount = br.counter.halfOpenMaxProbes := by
        rw [add32_small _ _ (by omega)]
        omega
      by_cases hpc : br.counter.halfOpenMaxFailurePercent ≤
          floatPercent (br.counter.halfOpenFailureCount + 1) br.counter.halfOpenMaxProbes
      · have hr : recordHalfOpenResult br false =
            { br with
              state := BState.stateOpen
              pendingRetries := br.pendingRetries + 1
              counter := { br.counter with
                halfOpenFailureCount := 0, halfOpenSuccessCount := 0 } } := by
          simp [recordHalfOpenResult, getState, hs, h1, h2, hpc, startRetry, setState]
        refine ⟨fun _ => ?_, fun hcon => ?_, ?_, ?_⟩
        · rw [hr]
          exact ⟨rfl, rfl, rfl⟩
        · simp at hcon
          omega
        · rw [hr]
        · rw [hr]
      · have hr : recordHalfOpenResult br false =
            { br with
              state := BState.stateClosed
              counter := { br.counter with
                failureCount := 0, halfOpenFailureCount := 0, halfOpenSuccessCount := 0 } } := by
          simp [recordHalfOpenResult, getState, hs, h1, h2, hpc, startRetry, setState]
        refine ⟨fun hcon => ?_, fun _ => ?_, ?_, ?_⟩
        · simp at hcon
          omega
        · rw [hr]
          exact ⟨rfl, rfl, rfl⟩
        · rw [hr]
        · rw [hr]

/-- Half-Open breaker with a probe window of 1, for the C3 witness. -/
def brHalfW : Breaker :=
  ⟨"h", ⟨4, 5, 5000000000, 1, 0, 0, 30⟩, BState.stateHalfOpen, 0, 2⟩

/-- Witness for C3 amended: a single failing probe in a window of size 1
gives failurePercent 100 ≥ 30, so the breaker opens, arms one more retry,
keeps failureCount, and zeroes both probe counters. -/
theorem C3_window_decision_witness :
    (recordHalfOpenResult brHalfW false).state = BState.stateOpen ∧
    (recordHalfOpenResult brHalfW false).pendingRetries = 3 ∧
    (recordHalfOpenResult brHalfW false).counter.failureCount = 4 ∧
    (recordHalfOpenResult brHalfW false).counter.halfOpenFailureCount = 0 ∧
    (recordHalfOpenResult brHalfW false).counter.halfOpenSuccessCount = 0 := by
  have h := C3_window_decision brHalfW false (by decide) (by decide) (by decide)
  exact ⟨(h.1 (by decide)).1, (h.1 (by decide)).2.1, (h.1 (by decide)).2.2,
    h.2.2.1, h.2.2.2⟩

/-- Strengthened probe invariant: between completed operations the probe
counters sum to strictly less than the window, and the window fits in
uint32. -/
def probeInv (br : Breaker) : Prop :=
  br.counter.halfOpenFailureCount + br.counter.halfOpenSuccessCount <
    br.counter.halfOpenMaxProbes ∧
  br.counter.halfOpenMaxProbes < UINT32MOD

/-- The resolved probe window is the configured one, or 10 when unset. -/
theorem applyDefaults_probes (c : BreakerConfig) :
    (applyDefaults c).HalfOpenMaxProbes =
      if c.HalfOpenMaxProbes = 0 then 10 else c.HalfOpenMaxProbes := by
  obtain ⟨ft, ri, pr, pc, tm⟩ := c
  simp only [applyDefaults, defaultHalfOpenProbes]
  split_ifs <;> simp_all

/-- A freshly constructed breaker satisfies the probe invariant. -/
theorem probeInv_init (name : String) (cfg : BreakerConfig) (br : Breaker)
    (hcfg : cfg.HalfOpenMaxProbes < UINT32MOD)
    (h : InitBreaker name (some cfg) = some br) : probeInv br := by
  simp only [InitBreaker, applyDefaultsPtr, Option.some.injEq] at h
  subst h
  constructor
  · show 0 + 0 < (applyDefaults cfg).HalfOpenMaxProbes
    rw [applyDefaults_probes]
    split_ifs <;> omega
  · show (applyDefaults cfg).HalfOpenMaxProbes < UINT32MOD
    rw [applyDefaults_probes]
    have : (10 : Nat) < UINT32MOD := by norm_num [UINT32MOD]
    split_ifs <;> omega

/-- recordHalfOpenResult preserves the probe invariant. -/
theorem probeInv_record (br : Breaker) (s : Bool) (h : probeInv br) :
    probeInv (recordHalfOpenResult br s) := by
  obtain ⟨hsum, hmod⟩ := h
  by_cases hs : br.state = BState.stateHalfOpen
  · cases s with
    | true =>
        have h1 : add32 br.counter.halfOpenSuccessCount 1 =
            br.counter.halfOpenSuccessCount + 1 :=
          add32_small _ _ (by omega)
        have h2 : add32 br.counter.halfOpenFailureCount
            (br.counter.halfOpenSuccessCount + 1) =
            br.counter.halfOpenFailureCount + br.counter.halfOpenSuccessCount + 1 := by
          rw [add32_small _ _ (by omega)]
          omega
        by_cases hfull : br.counter.halfOpenFailureCount +
            br.counter.halfOpenSuccessCount + 1 = br.counter.halfOpenMaxProbes
        · by_cases hpc : br.counter.halfOpenMaxFailurePercent ≤
              floatPercent br.counter.halfOpenFailureCount br.counter.halfOpenMaxProbes
          · simp [recordHalfOpenResult, getState, hs, h1, h2, hfull, hpc,
              startRetry, setState, probeInv]
            omega
          · simp [recordHalfOpenResult, getState, hs, h1, h2, hfull, hpc,
              startRetry, setState, probeInv]
            omega
        · simp [recordHalfOpenResult, getState, hs, h1, h2, hfull, probeInv]
          omega
    | false =>
        have h1 : add32 br.counter.halfOpenFailureCount 1 =
            br.counter.halfOpenFailureCount + 1 :=
          add32_small _ _ (by omega)
        have h2 : add32 (br.counter.halfOpenFailureCount + 1)
            br.counter.halfOpenSuccessCount =
            br.counter.halfOpenFailureCount + 1 + br.counter.halfOpenSuccessCount := by
          rw [add32_small _ _ (by omega)]
        by_cases hfull : br.counter.halfOpenFailureCount + 1 +
            br.counter.halfOpenSuccessCount = br.counter.halfOpenMaxProbes
        · by_cases hpc : br.counter.halfOpenMaxFailurePercent ≤
              floatPercent (br.counter.halfOpenFailureCount + 1)
                br.counter.halfOpenMaxProbes
          · simp [recordHalfOpenResult, getState, hs, h1, h2, hfull, hpc,
              startRetry, setState, probeInv]
            omega
          · simp [recordHalfOpenResult, getState, hs, h1, h2, hfull, hpc,
              startRetry, setState, probeInv]
            omega
        · simp [recordHalfOpenResult, getState, hs, h1, h2, hfull, probeInv]
          omega
  · simp [recordHalfOpenResult, getState, hs]
    exact ⟨hsum, hmod⟩

/-- Breaker.failure preserves the probe invariant (it only touches
failureCount, the state, and the pending retries). -/
theorem probeInv_failure (br : Breaker) (h : probeInv br) :
    probeInv br.failure := by
  unfold Breaker.failure
  dsimp only
  split
  · exact h
  · exact h

/-- One Execute call preserves the probe invariant. -/
theorem probeInv_exec (br : Breaker) (err : Option String) (h : probeInv br) :
    probeInv (Execute (T := Unit) br ((), err)).br := by
  cases hstate : br.state with
  | stateOpen =>
      rw [Execute_state_open br _ hstate]
      exact h
  | stateClosed =>
      cases err with
      | none =>
          rw [Execute_state_closed_ok br () hstate]
          exact h
      | some e =>
          rw [Execute_state_closed_err br () e hstate]
          exact probeInv_failure br h
  | stateHalfOpen =>
      cases err with
      | none =>
          rw [Execute_state_half_ok br () hstate]
          exact probeInv_record br true h
      | some e =>
          rw [Execute_state_half_err br () e hstate]
          exact probeInv_record br false h

/-- C8: starting from a freshly constructed breaker, after every completed
operation (any sequence of Execute calls and retry firings) the probe
counters sum to at most probeWindowSize; the sum only reaches the window
inside the decision step, after which both counters are 0. -/
theorem C8_probe_sum_invariant (br : Breaker) (h : Reachable br) :
    br.counter.halfOpenFailureCount + br.counter.halfOpenSuccessCount ≤
      br.counter.halfOpenMaxProbes := by
  have key : probeInv br := by
    induction h with
    | init name cfg b hcfg hinit => exact probeInv_init name cfg b hcfg hinit
    | exec b err hb ih => exact probeInv_exec b err ih
    | fire b hb ih => exact ih
  exact Nat.le_of_lt key.1

/-- Zero configuration used by the C8 witness; every field resolves to its
default. -/
def cfgW : BreakerConfig := ⟨0, 0, 0, 0, 0⟩

/-- The breaker InitBreaker builds from cfgW. -/
def brFreshW : Breaker :=
  ⟨"f", ⟨0, 5, 5000000000, 10, 0, 0, 30⟩, BState.stateClosed, 0, 0⟩

/-- Witness for C8 at the freshly constructed breaker. -/
theorem C8_probe_sum_invariant_witness :
    brFreshW.counter.halfOpenFailureCount + brFreshW.counter.halfOpenSuccessCount ≤
      brFreshW.counter.halfOpenMaxProbes :=
  C8_probe_sum_invariant brFreshW
    (Reachable.init ("f") cfgW brFreshW (by decide) (by decide))
